import Mathlib

/-!
Shallow embedding of the analytics / caching subsystem of the blog backend
(`apps/blog/views.py`, `apps/blog/tasks.py`).  Stateful Django/Redis code is
embedded as explicit state passing over association lists; Python exceptions
are embedded with `Except`; the float `click_through_rate` field is embedded
as an exact rational.
-/

namespace Blog

/-- Durable per-entity analytics aggregate (a `PostAnalytics` /
`CategoryAnalytics` row).  The float CTR field is modelled by an exact
rational. -/
structure AnalyticsRecord where
  impressions : Nat
  views : Nat
  clicks : Nat
  avgTimeOnPage : ℚ
  clickThroughRate : ℚ
deriving DecidableEq, Repr

/-- A fresh analytics row: all counters zero (the `get_or_create` default). -/
def zeroRecord : AnalyticsRecord :=
  { impressions := 0, views := 0, clicks := 0, avgTimeOnPage := 0, clickThroughRate := 0 }

/-- Modelled from the spec: `PostAnalytics._update_click_through_rate` lives in
`apps/blog/models.py`, which is not among the provided sources.  Spec 4.4
recomputation rule: `clickThroughRate = clicks / impressions if impressions > 0
else 0`, recomputed whenever either input changes; the caller persists the
result. -/
def update_click_through_rate (a : AnalyticsRecord) : AnalyticsRecord :=
  { a with clickThroughRate :=
      if 0 < a.impressions then (a.clicks : ℚ) / (a.impressions : ℚ) else 0 }

/-- Modelled from the spec: `PostAnalytics.increment_click` (models.py, absent
from the sources).  Spec 4.4 `incrementClick`: add 1 to `clicks`, recompute the
CTR, persist. -/
def increment_click (a : AnalyticsRecord) : AnalyticsRecord :=
  update_click_through_rate { a with clicks := a.clicks + 1 }

/-- Modelled from the spec: `PostAnalytics.increment_impression` (models.py,
absent from the sources).  Spec 4.4 `incrementImpression` with delta 1. -/
def increment_impression (a : AnalyticsRecord) : AnalyticsRecord :=
  update_click_through_rate { a with impressions := a.impressions + 1 }

/-- The CTR freshness invariant of spec section 3: the stored rate equals the
ratio recomputed from the record's own current counters. -/
def ctrInvariant (a : AnalyticsRecord) : Prop :=
  a.clickThroughRate = if 0 < a.impressions then (a.clicks : ℚ) / (a.impressions : ℚ) else 0

/-! ### Character-level string helpers

Implemented by structural recursion over the character list, so that the
kernel can evaluate them on concrete inputs. -/

/-- Python `str.strip()` whitespace (ASCII). -/
def isSpaceChar (c : Char) : Bool :=
  c.toNat == 32 || c.toNat == 9 || c.toNat == 10 || c.toNat == 13 || c.toNat == 11 || c.toNat == 12

/-- Python `str.strip()`. -/
def pyStrip (s : String) : String :=
  String.mk (((s.data.dropWhile isSpaceChar).reverse.dropWhile isSpaceChar).reverse)

/-- The characters of the first list are a prefix of the second. -/
def charsPrefix : List Char → List Char → Bool
  | [], _ => true
  | _ :: _, [] => false
  | a :: as, b :: bs => a == b && charsPrefix as bs

def strHasPrefix (p s : String) : Bool := charsPrefix p.data s.data

/-- Helper for `removeAll`: while the counter is positive we are skipping the
tail of a matched occurrence. -/
def removeAllAux (pat : List Char) : Nat → List Char → List Char
  | _, [] => []
  | Nat.succ k, _ :: cs => removeAllAux pat k cs
  | 0, c :: cs =>
    if charsPrefix pat (c :: cs) && !pat.isEmpty then removeAllAux pat (pat.length - 1) cs
    else c :: removeAllAux pat 0 cs

/-- Python `str.replace(pat, "")`: drop all non-overlapping occurrences,
left to right. -/
def removeAll (pat cs : List Char) : List Char := removeAllAux pat 0 cs

/-! ### Fast counter store (Redis) -/

/-- Redis `INCR` (atomic in Redis): bump the key, creating it at 1 if absent. -/
def redisIncr : List (String × Nat) → String → List (String × Nat)
  | [], k => [(k, 1)]
  | (k', v) :: rest, k => if k' = k then (k', v + 1) :: rest else (k', v) :: redisIncr rest k

/-- Redis `GET`. -/
def redisGet : List (String × Nat) → String → Option Nat
  | [], _ => none
  | (k', v) :: rest, k => if k' = k then some v else redisGet rest k

/-- The integer value under a key, 0 when absent. -/
def redisLookup (r : List (String × Nat)) (k : String) : Nat := (redisGet r k).getD 0

/-- Redis `DEL`. -/
def redisDelete : List (String × Nat) → String → List (String × Nat)
  | [], _ => []
  | (k', v) :: rest, k => if k' = k then redisDelete rest k else (k', v) :: redisDelete rest k

/-- Redis `KEYS pre*`: all keys with the given prefix, in store order. -/
def redisKeys (r : List (String × Nat)) (pre : String) : List String :=
  (r.filter (fun e => strHasPrefix pre e.1)).map (fun e => e.1)

/-! ### Analytics record store (the relational database) -/

def dbLookup : List (String × AnalyticsRecord) → String → Option AnalyticsRecord
  | [], _ => none
  | (k', v) :: rest, k => if k' = k then some v else dbLookup rest k

def dbSave : List (String × AnalyticsRecord) → String → AnalyticsRecord → List (String × AnalyticsRecord)
  | [], k, a => [(k, a)]
  | (k', v) :: rest, k, a => if k' = k then (k', a) :: rest else (k', v) :: dbSave rest k a

/-- Django `objects.get_or_create(...)`: atomic fetch-or-insert; returns the row
and the store (with a zero row inserted when absent). -/
def dbGetOrCreate (db : List (String × AnalyticsRecord)) (k : String) :
    AnalyticsRecord × List (String × AnalyticsRecord) :=
  match dbLookup db k with
  | some a => (a, db)
  | none => (zeroRecord, dbSave db k zeroRecord)

/-! ### The reconciliation job (tasks.py `sync_impressions_to_db`) -/

structure SyncState where
  redis : List (String × Nat)
  db : List (String × AnalyticsRecord)
  failLog : List String
deriving DecidableEq, Repr

/-- `key.decode("utf-8").split(":")[-1]` of tasks.py line 47: the text after
the last colon (codepoint 58), or the whole string when there is none. -/
def postIdOf (key : String) : String :=
  String.mk ((key.data.reverse.takeWhile (fun c => c.toNat != 58)).reverse)

/-- The `print(f"Error syncing impressions for {key}: {str(e)}")` line. -/
def syncLogLine (key e : String) : String :=
  "Error syncing impressions for " ++ key ++ ": " ++ e

/-- Body of one iteration of the `for key in keys` loop of
`sync_impressions_to_db` (tasks.py lines 46-56), before the `except`.
`dbFail pid = true` injects the failure mode of spec 4.5 (entity missing /
analytics store unavailable) as an exception raised at the database update,
before anything is written.  On success the final save persists the freshly
recomputed CTR (the model method is spec-modelled, see
`update_click_through_rate`), and only then is the Redis key deleted. -/
def syncKeyBody (dbFail : String → Bool) (st : SyncState) (key : String) :
    Except String SyncState :=
  let pid := postIdOf key
  match redisGet st.redis key with
  | none => .error "int() argument is None"
  | some impressions =>
    if dbFail pid then .error "analytics update failed"
    else
      let pair := dbGetOrCreate st.db pid
      let a1 := { pair.1 with impressions := pair.1.impressions + impressions }
      let db2 := dbSave pair.2 pid a1
      let a2 := update_click_through_rate a1
      let db3 := dbSave db2 pid a2
      .ok { redis := redisDelete st.redis key, db := db3, failLog := st.failLog }

/-- One loop iteration with its `try/except`: a failure only appends a log
line. -/
def syncKey (dbFail : String → Bool) (st : SyncState) (key : String) : SyncState :=
  match syncKeyBody dbFail st key with
  | .ok st' => st'
  | .error e => { st with failLog := st.failLog ++ [syncLogLine key e] }

/-- tasks.py `sync_impressions_to_db`: snapshot the pending post-impression
keys (`redis_client.keys("post:impressions:*")`), then process each key under
a per-key `try/except`. -/
def sync_impressions_to_db (dbFail : String → Bool) (st : SyncState) : SyncState :=
  (redisKeys st.redis "post:impressions:").foldl (syncKey dbFail) st

/-- tasks.py `increment_post_impressions`: `try/except` around
`get_or_create` + `increment_impression`; a failure is logged via
`logger.info`, never raised.  `fail = true` injects an analytics-store
failure. -/
def increment_post_impressions (fail : Bool) (db : List (String × AnalyticsRecord))
    (post_id : String) : List (String × AnalyticsRecord) × List String :=
  if fail then
    (db, ["Error incrementing impressions for Post ID " ++ post_id ++ ": store error"])
  else
    let pair := dbGetOrCreate db post_id
    (dbSave pair.2 post_id (increment_impression pair.1), [])

/-! ### Entities -/

/-- A blog post row as the list view sees it, with the analytics view count
prefetched (`analytics_cache.views`) and the category denormalised to its id
(canonical 32-hex lowercase form of the UUID) and slug, which are the only
category fields the view's filters touch. -/
structure Post where
  id : String
  title : String
  description : String
  content : String
  keywords : String
  slug : String
  categoryId : String
  categorySlug : String
  status : String
  createdAt : Nat
  updatedAt : Nat
  views : Nat
deriving DecidableEq, Repr

/-- A category row; `parentSlug` is `none` for a root category. -/
structure Category where
  id : String
  name : String
  slug : String
  title : String
  description : String
  parentSlug : Option String
  createdAt : Nat
  updatedAt : Nat
  views : Nat
deriving DecidableEq, Repr

/-- `Post.postobjects`: the manager that returns only published posts. -/
def postobjects (l : List Post) : List Post := l.filter (fun p => p.status == "published")

/-! ### String helpers (Django `icontains`, CPython `uuid.UUID`) -/

def lowerChars (s : String) : List Char := s.data.map Char.toLower

def charsInfix (n : List Char) : List Char → Bool
  | [] => n.isEmpty
  | b :: bs => charsPrefix n (b :: bs) || charsInfix n bs

/-- Django `icontains`: case-insensitive substring match. -/
def icontains (hay needle : String) : Bool := charsInfix (lowerChars needle) (lowerChars hay)

/-- An opening or closing curly brace (codepoints 123 and 125). -/
def isBraceChar (c : Char) : Bool := c.toNat == 123 || c.toNat == 125

def isHexChar (c : Char) : Bool :=
  c.isDigit || (97 ≤ c.toNat && c.toNat ≤ 102) || (65 ≤ c.toNat && c.toNat ≤ 70)

/-- The hex digits `uuid.UUID(token)` parses: drop `urn:` and `uuid:`, strip
surrounding braces, drop hyphens (codepoint 45), as CPython's `uuid.UUID`
constructor does. -/
def pyUUIDHex (s : String) : List Char :=
  let cs1 := removeAll "uuid:".data (removeAll "urn:".data s.data)
  let cs := (cs1.dropWhile isBraceChar).reverse.dropWhile isBraceChar
  cs.reverse.filter (fun c => c.toNat != 45)

/-- `uuid.UUID(token)` succeeds: exactly 32 hex digits after normalisation. -/
def isValidUUID (s : String) : Bool :=
  (pyUUIDHex s).length == 32 && (pyUUIDHex s).all isHexChar

/-- The canonical value a `UUIDField` comparison sees for the token. -/
def canonicalHex (s : String) : String := String.mk ((pyUUIDHex s).map Char.toLower)

/-! ### The Q expressions of the category filter (views.py lines 67-82) -/

inductive DjangoQ where
  | empty
  | catId (hex : String)
  | catSlug (s : String)
  | qor (a b : DjangoQ)
deriving DecidableEq, Repr

/-- Django `Q.__or__`: the empty `Q()` is the identity of the `|` combinator. -/
def DjangoQ.combineOr : DjangoQ → DjangoQ → DjangoQ
  | .empty, b => b
  | a, .empty => a
  | a, b => .qor a b

/-- Evaluate a Q expression against a post; the bare empty `Q()` used as a
filter matches every row. -/
def DjangoQ.eval : DjangoQ → Post → Bool
  | .empty, _ => true
  | .catId h, p => p.categoryId == h
  | .catSlug s, p => p.categorySlug == s
  | .qor a b, p => a.eval p || b.eval p

/-- One loop iteration of views.py 69-81: a token that parses as a UUID becomes
`Q(category__id=...)`, any other token becomes `Q(category__slug=...)`. -/
def categoryQ (token : String) : DjangoQ :=
  if isValidUUID token then .catId (canonicalHex token) else .catSlug token

/-- The `category_queries` accumulator: start from `Q()` and OR each token in. -/
def buildCategoryQueries (tokens : List String) : DjangoQ :=
  tokens.foldl (fun acc t => acc.combineOr (categoryQ t)) .empty

/-- views.py 67-82: `if categories:` then `posts.filter(category_queries)`. -/
def applyCategoryFilter (tokens : List String) (posts : List Post) : List Post :=
  if tokens.isEmpty then posts else posts.filter (buildCategoryQueries tokens).eval

/-! ### Search, sorting, ordering (views.py 57-97) -/

def searchFilter (search : String) (posts : List Post) : List Post :=
  if search != "" then
    posts.filter (fun p =>
      icontains p.title search || icontains p.description search ||
      icontains p.content search || icontains p.keywords search)
  else posts

def insertBy {α : Type} (le : α → α → Bool) (x : α) : List α → List α
  | [] => [x]
  | y :: ys => if le x y then x :: y :: ys else y :: insertBy le x ys

/-- Insertion sort standing in for the store's ORDER BY. -/
def sortBy {α : Type} (le : α → α → Bool) : List α → List α
  | [] => []
  | x :: xs => insertBy le x (sortBy le xs)

def applySorting (sorting : Option String) (posts : List Post) : List Post :=
  match sorting with
  | none => posts
  | some s =>
    if s == "newest" then sortBy (fun a b => decide (b.createdAt ≤ a.createdAt)) posts
    else if s == "recently_updated" then sortBy (fun a b => decide (b.updatedAt ≤ a.updatedAt)) posts
    else if s == "most_viewed" then sortBy (fun a b => decide (b.views ≤ a.views)) posts
    else posts

def applyOrdering (ordering : Option String) (posts : List Post) : List Post :=
  match ordering with
  | none => posts
  | some o =>
    let posts1 := if o == "az" then sortBy (fun a b => decide (a.title ≤ b.title)) posts else posts
    if o == "za" then sortBy (fun a b => decide (b.title ≤ a.title)) posts1 else posts1

/-! ### The read-through query cache (Django `cache.get` / `cache.set`) -/

/-- First entry under the signature: `cache.set` prepends, so the newest entry
wins, modelling overwrite. -/
def cacheFind {σ α : Type} [DecidableEq σ] : List (σ × α × Nat) → σ → Option (α × Nat)
  | [], _ => none
  | (s, v, e) :: rest, sig => if s = sig then some (v, e) else cacheFind rest sig

/-- `cache.get` composed with Python truthiness: an expired entry reads as a
miss, and so does a stored empty result set (`if cached_posts:`). -/
def truthyCacheGet {σ α : Type} [DecidableEq σ] (c : List (σ × List α × Nat)) (now : Nat)
    (sig : σ) : Option (List α) :=
  match cacheFind c sig with
  | some (v, e) => if now < e then (if v.isEmpty then none else some v) else none
  | none => none

/-! ### Requests, responses, exceptions -/

/-- The query parameters of the post list endpoint (`search` still raw, the
handler strips it). -/
structure ListRequest where
  search : String
  sorting : Option String
  ordering : Option String
  categories : List String
  page : String
deriving DecidableEq, Repr

/-- The cache-key signature `post_list:{search}:{sorting}:{ordering}:{categories}:{page}`. -/
structure QuerySig where
  search : String
  sorting : Option String
  ordering : Option String
  categories : List String
  page : String
deriving DecidableEq, Repr

inductive PyExc where
  | notFound (detail : String)
  | unboundLocal (name : String)
  | storeError (msg : String)
deriving DecidableEq, Repr

def excMsg : PyExc → String
  | .notFound d => d
  | .unboundLocal n => "cannot access local variable " ++ n
  | .storeError m => m

inductive Response where
  | paginated (items : List Post)
  | catPaginated (items : List Category)
  | clickOk (clicks : Nat)
  | notFound (detail : String)
  | apiError (detail : String)
deriving DecidableEq, Repr

/-- The response is the generic 500-equivalent `APIException`. -/
def Response.isApiError : Response → Bool
  | .apiError _ => true
  | _ => false

/-- The `for entity in result: redis_client.incr(key)` loop; a down counter
store raises at the first call. -/
def incrLoop (down : Bool) (r : List (String × Nat)) :
    List String → Except PyExc (List (String × Nat))
  | [] => .ok r
  | k :: ks =>
    if down then .error (.storeError "Connection refused")
    else incrLoop down (redisIncr r k) ks

/-! ### PostListView.get (views.py 26-111) -/

structure PostStore where
  posts : List Post
  cache : List (QuerySig × List Post × Nat)
  redis : List (String × Nat)
  redisDown : Bool
  now : Nat
deriving DecidableEq, Repr

def postSig (req : ListRequest) : QuerySig :=
  { search := pyStrip req.search, sorting := req.sorting, ordering := req.ordering,
    categories := req.categories, page := req.page }

def postImpressionKey (p : Post) : String := "post:impressions:" ++ p.id

/-- The fully filtered and ordered query result (views.py 50-97). -/
def postListResult (req : ListRequest) (st : PostStore) : List Post :=
  applyOrdering req.ordering (applySorting req.sorting
    (applyCategoryFilter req.categories (searchFilter (pyStrip req.search) (postobjects st.posts))))

/-- The cache-miss path: the `exists()` check runs before any filter; the
result is cached (full objects, 5-minute timeout) before the impression loop,
so a counter failure leaves the cache written. -/
def postListMiss (req : ListRequest) (st : PostStore) : PostStore × Except PyExc Response :=
  if (postobjects st.posts).isEmpty then (st, .error (.notFound "No posts found."))
  else
    let result := postListResult req st
    let cache1 := (postSig req, result, st.now + 60 * 5) :: st.cache
    match incrLoop st.redisDown st.redis (result.map postImpressionKey) with
    | .ok r1 => ({ st with cache := cache1, redis := r1 }, .ok (.paginated result))
    | .error e => ({ st with cache := cache1 }, .error e)

/-- Handler body inside the `try` (views.py 30-109). -/
def postListBody (req : ListRequest) (st : PostStore) : PostStore × Except PyExc Response :=
  match truthyCacheGet st.cache st.now (postSig req) with
  | some cached =>
    match incrLoop st.redisDown st.redis (cached.map postImpressionKey) with
    | .ok r1 => ({ st with redis := r1 }, .ok (.paginated cached))
    | .error e => (st, .error e)
  | none => postListMiss req st

/-- `PostListView.get` with its catch-all `except Exception` (views.py
110-111): any exception, `NotFound` included, is rewrapped as the generic
`APIException`. -/
def PostListView_get (req : ListRequest) (st : PostStore) : PostStore × Response :=
  match postListBody req st with
  | (st1, .ok r) => (st1, r)
  | (st1, .error e) => (st1, .apiError ("An unexpected error occurred: " ++ excMsg e))

/-! ### IncrementPostClickView.post (views.py 160-183) -/

structure ClickStore where
  posts : List Post
  analytics : List (String × AnalyticsRecord)
  dbDown : Bool
deriving DecidableEq, Repr

/-- `IncrementPostClickView.post`: a missing post raises `NotFound` outside any
catch-all (a real 404); the analytics update is wrapped in its own
`try/except` that rewraps failures as the generic `APIException`.  The
analytics model methods are spec-modelled (`increment_click`). -/
def IncrementPostClickView_post (slug : String) (st : ClickStore) : ClickStore × Response :=
  match (postobjects st.posts).find? (fun p => p.slug == slug) with
  | none => (st, .notFound "The requested post does not exist")
  | some p =>
    if st.dbDown then
      (st, .apiError "An error ocurred while updating post analytics: store error")
    else
      let pair := dbGetOrCreate st.analytics p.id
      let a2 := increment_click pair.1
      ({ st with analytics := dbSave pair.2 p.id a2 }, .clickOk a2.clicks)

/-! ### CategoryListView.get (views.py 186-260) -/

structure CatRequest where
  parentSlug : Option String
  ordering : Option String
  sorting : Option String
  search : String
  page : String
deriving DecidableEq, Repr

structure CatSig where
  page : String
  ordering : Option String
  sorting : Option String
  search : String
  parentSlug : Option String
deriving DecidableEq, Repr

structure CatStore where
  categories : List Category
  cache : List (CatSig × List Category × Nat)
  redis : List (String × Nat)
  redisDown : Bool
  now : Nat
deriving DecidableEq, Repr

def catSig (req : CatRequest) : CatSig :=
  { page := req.page, ordering := req.ordering, sorting := req.sorting,
    search := pyStrip req.search, parentSlug := req.parentSlug }

def catImpressionKey (c : Category) : String := "category:impressions:" ++ c.id

/-- views.py 211-219: `if parent_slug:` (Python truthiness) selects children of
that slug, otherwise the root categories. -/
def catBase (req : CatRequest) (st : CatStore) : List Category :=
  match req.parentSlug with
  | some ps =>
    if ps != "" then st.categories.filter (fun c => c.parentSlug == some ps)
    else st.categories.filter (fun c => c.parentSlug == none)
  | none => st.categories.filter (fun c => c.parentSlug == none)

def catSearchFilter (search : String) (cats : List Category) : List Category :=
  if search != "" then
    cats.filter (fun c =>
      icontains c.name search || icontains c.slug search ||
      icontains c.title search || icontains c.description search)
  else cats

def catSorting (sorting : Option String) (cats : List Category) : List Category :=
  match sorting with
  | none => cats
  | some s =>
    if s == "newest" then sortBy (fun a b => decide (b.createdAt ≤ a.createdAt)) cats
    else if s == "recently_updated" then sortBy (fun a b => decide (b.updatedAt ≤ a.updatedAt)) cats
    else if s == "most_viewed" then sortBy (fun a b => decide (b.views ≤ a.views)) cats
    else cats

/-- Tail of the miss path shared by both ordering outcomes: cache the result
(5-minute timeout), then the impression loop, then paginate. -/
def catFinish (req : CatRequest) (st : CatStore) (cats : List Category) :
    CatStore × Except PyExc Response :=
  let cache1 := (catSig req, cats, st.now + 60 * 5) :: st.cache
  match incrLoop st.redisDown st.redis (cats.map catImpressionKey) with
  | .ok r1 => ({ st with cache := cache1, redis := r1 }, .ok (.catPaginated cats))
  | .error e => ({ st with cache := cache1 }, .error e)

/-- Handler body inside the `try` (views.py 191-258).  The `az`/`za` ordering
branch (lines 242-246) reads the local variable `posts`, which is never
assigned in this handler, so reaching it raises `UnboundLocalError`. -/
def catListBody (req : CatRequest) (st : CatStore) : CatStore × Except PyExc Response :=
  match truthyCacheGet st.cache st.now (catSig req) with
  | some cached =>
    match incrLoop st.redisDown st.redis (cached.map catImpressionKey) with
    | .ok r1 => ({ st with redis := r1 }, .ok (.catPaginated cached))
    | .error e => (st, .error e)
  | none =>
    if (catBase req st).isEmpty then (st, .error (.notFound "No categories found."))
    else
      let cats := catSorting req.sorting (catSearchFilter (pyStrip req.search) (catBase req st))
      match req.ordering with
      | some o =>
        if o == "az" || o == "za" then (st, .error (.unboundLocal "posts"))
        else catFinish req st cats
      | none => catFinish req st cats

/-- `CategoryListView.get` with its catch-all `except Exception` (views.py
259-260). -/
def CategoryListView_get (req : CatRequest) (st : CatStore) : CatStore × Response :=
  match catListBody req st with
  | (st1, .ok r) => (st1, r)
  | (st1, .error e) => (st1, .apiError ("An unexpected error occurred: " ++ excMsg e))

/-! ### Interleaving model for one impression key (spec section 5)

Every call into the fast counter store is a suspension point, so the atomic
units are the individual store operations: the view's `INCR`
(views.py 106-107), the job's `GET` (tasks.py 48), the job's database update
(tasks.py 50-52), and the job's `DEL` (tasks.py 56). -/

inductive CounterOp where
  | clientIncr
  | jobRead
  | jobDbAdd
  | jobDelete
deriving DecidableEq, Repr

structure RaceState where
  counter : Option Nat
  jobLocal : Nat
  dbImpressions : Nat
deriving DecidableEq, Repr

def raceStep (s : RaceState) : CounterOp → RaceState
  | .clientIncr => { s with counter := some (s.counter.getD 0 + 1) }
  | .jobRead => { s with jobLocal := s.counter.getD 0 }
  | .jobDbAdd => { s with dbImpressions := s.dbImpressions + s.jobLocal }
  | .jobDelete => { s with counter := none }

def runRace (s : RaceState) (ops : List CounterOp) : RaceState := ops.foldl raceStep s

def countIncrs (ops : List CounterOp) : Nat := ops.count .clientIncr

/-- The interleaving refuting exact drain: a second client increment lands
between the job's GET and its DEL of the same key. -/
def raceTrace : List CounterOp :=
  [.clientIncr, .jobRead, .clientIncr, .jobDbAdd, .jobDelete]

/-! ### Derived notions used by the statements -/

/-- The record a successful flush of `delta` pending impressions writes for an
entity whose stored row was `old` (absent = created at zero): counters bumped
and the CTR freshly recomputed. -/
def flushedRecord (old : Option AnalyticsRecord) (delta : Nat) : AnalyticsRecord :=
  update_click_through_rate
    { old.getD zeroRecord with impressions := (old.getD zeroRecord).impressions + delta }

/-- Every row of `db` either already sat unchanged in `db0` or carries a CTR
recomputed from its own current counters: no operation leaves behind a row it
touched with a stale CTR. -/
def dbFreshOrOld (db0 db : List (String × AnalyticsRecord)) : Prop :=
  ∀ pid rec, dbLookup db pid = some rec → dbLookup db0 pid = some rec ∨ ctrInvariant rec

/-! ### Concrete fixtures for witnesses and counterexamples -/

def samplePost : Post :=
  { id := "p1", title := "Alpha", description := "d", content := "c", keywords := "k",
    slug := "alpha", categoryId := "123e4567e89b12d3a456426614174000",
    categorySlug := "fiction", status := "published", createdAt := 1, updatedAt := 2, views := 3 }

/-- Same identifier as `samplePost`, different title. -/
def samplePostB : Post := { samplePost with title := "Beta" }

/-- A post in a category matched only by slug. -/
def fictionPost : Post :=
  { samplePost with
    id := "p2"
    slug := "beta"
    categoryId := "ffffffffffffffffffffffffffffffff"
    categorySlug := "fiction" }

def baseRequest : ListRequest :=
  { search := "", sorting := none, ordering := none, categories := [], page := "1" }

def searchMissRequest : ListRequest := { baseRequest with search := "zzz" }

def freshStore : PostStore :=
  { posts := [samplePost], cache := [], redis := [], redisDown := false, now := 0 }

def downStore : PostStore := { freshStore with redisDown := true }

def emptyStore : PostStore := { freshStore with posts := [] }

def storeB : PostStore := { freshStore with posts := [samplePostB] }

def clickFixture : ClickStore :=
  { posts := [samplePost], analytics := [], dbDown := false }

/-- The row the click endpoint persists on `clickFixture`. -/
def clickedRecord : AnalyticsRecord :=
  { impressions := 0, views := 0, clicks := 1, avgTimeOnPage := 0, clickThroughRate := 0 }

def syncFixture : SyncState :=
  { redis := [("post:impressions:p1", 3), ("post:impressions:p2", 2)], db := [], failLog := [] }

/-- Failure oracle for the sync fixture: the update for post `p2` fails. -/
def failP2 : String → Bool := fun pid => pid == "p2"

def sampleCategory : Category :=
  { id := "c1", name := "Fiction", slug := "fiction", title := "Fiction", description := "d",
    parentSlug := none, createdAt := 1, updatedAt := 2, views := 3 }

def azCatRequest : CatRequest :=
  { parentSlug := none, ordering := some "az", sorting := none, search := "", page := "1" }

def catStoreFixture : CatStore :=
  { categories := [sampleCategory], cache := [], redis := [], redisDown := false, now := 0 }

/-! ## Store lemmas -/

theorem dbLookup_dbSave_self (db : List (String × AnalyticsRecord)) (k : String)
    (a : AnalyticsRecord) : dbLookup (dbSave db k a) k = some a := by
  induction db with
  | nil => simp [dbSave, dbLookup]
  | cons e rest ih =>
    obtain ⟨k', v⟩ := e
    by_cases h : k' = k <;> simp [dbSave, dbLookup, h, ih]

theorem dbLookup_dbSave_other (db : List (String × AnalyticsRecord)) (k k2 : String)
    (a : AnalyticsRecord) (h : k2 ≠ k) : dbLookup (dbSave db k a) k2 = dbLookup db k2 := by
  have h' : ¬k = k2 := Ne.symm h
  induction db with
  | nil => simp [dbSave, dbLookup, h']
  | cons e rest ih =>
    obtain ⟨k', v⟩ := e
    by_cases h1 : k' = k
    · subst h1; simp [dbSave, dbLookup, Ne.symm h]
    · by_cases h2 : k' = k2 <;> simp [dbSave, dbLookup, h, h1, h2, ih]

theorem dbLookup_dbGetOrCreate_other (db : List (String × AnalyticsRecord)) (k k2 : String)
    (h : k2 ≠ k) : dbLookup (dbGetOrCreate db k).2 k2 = dbLookup db k2 := by
  unfold dbGetOrCreate
  cases hg : dbLookup db k with
  | some a => rfl
  | none => simp [dbLookup_dbSave_other _ _ _ _ h]

theorem dbGetOrCreate_fst (db : List (String × AnalyticsRecord)) (k : String) :
    (dbGetOrCreate db k).1 = (dbLookup db k).getD zeroRecord := by
  unfold dbGetOrCreate
  cases hg : dbLookup db k <;> rfl

theorem redisGet_delete_self (r : List (String × Nat)) (k : String) :
    redisGet (redisDelete r k) k = none := by
  induction r with
  | nil => rfl
  | cons e rest ih =>
    obtain ⟨k', v⟩ := e
    by_cases h : k' = k <;> simp [redisDelete, redisGet, h, ih]

theorem redisGet_delete_other (r : List (String × Nat)) (k k2 : String) (h : k2 ≠ k) :
    redisGet (redisDelete r k) k2 = redisGet r k2 := by
  induction r with
  | nil => rfl
  | cons e rest ih =>
    obtain ⟨k', v⟩ := e
    by_cases h1 : k' = k
    · subst h1; simp [redisDelete, redisGet, Ne.symm h, ih]
    · by_cases h2 : k' = k2 <;> simp [redisDelete, redisGet, h, h1, h2, ih]

theorem redisLookup_incr (r : List (String × Nat)) (j k : String) :
    redisLookup (redisIncr r j) k = redisLookup r k + (if j = k then 1 else 0) := by
  induction r with
  | nil =>
    by_cases h : j = k <;> simp [redisIncr, redisLookup, redisGet, h]
  | cons e rest ih =>
    obtain ⟨k', v⟩ := e
    by_cases h1 : k' = j
    · subst h1
      by_cases h2 : k' = k <;> simp [redisIncr, redisLookup, redisGet, h2]
    · by_cases h2 : k' = k
      · subst h2
        simp [redisIncr, redisLookup, redisGet, h1, Ne.symm h1]
      · simpa [redisIncr, redisLookup, redisGet, h1, h2] using ih

theorem redisLookup_incr_foldl (ks : List String) (r : List (String × Nat)) (k : String) :
    redisLookup (ks.foldl redisIncr r) k = redisLookup r k + ks.count k := by
  induction ks generalizing r with
  | nil => simp
  | cons j ks ih =>
    rw [List.foldl_cons, ih (redisIncr r j), redisLookup_incr]
    by_cases h : j = k
    · subst h; simp [List.count_cons]; omega
    · have : ¬(k == j) = true := by simpa using fun h' => h h'.symm
      simp [List.count_cons, h, this]

theorem redisGet_mem_keys (r : List (String × Nat)) (pre k : String)
    (h : k ∈ redisKeys r pre) : ∃ v, redisGet r k = some v := by
  induction r with
  | nil => simp [redisKeys] at h
  | cons e rest ih =>
    obtain ⟨k', v⟩ := e
    by_cases h1 : k' = k
    · exact ⟨v, by simp [redisGet, h1]⟩
    · have h2 : k ∈ redisKeys rest pre := by
        simp only [redisKeys, List.filter_cons] at h
        by_cases hp : strHasPrefix pre k'
        · simp only [hp, if_true, List.map_cons, List.mem_cons] at h
          rcases h with h | h
          · exact absurd h.symm h1
          · simpa [redisKeys] using h
        · simpa [redisKeys, hp] using h
      obtain ⟨v', hv⟩ := ih h2
      exact ⟨v', by simpa [redisGet, h1] using hv⟩

/-! ## Reconciliation-job lemmas -/

theorem syncKey_fail_state (f : String → Bool) (st : SyncState) (key : String) (v : Nat)
    (hv : redisGet st.redis key = some v) (hf : f (postIdOf key) = true) :
    syncKey f st key
      = { st with failLog := st.failLog ++ [syncLogLine key "analytics update failed"] } := by
  unfold syncKey syncKeyBody
  rw [hv]
  simp [hf]

theorem syncKey_ok_state (f : String → Bool) (st : SyncState) (key : String) (v : Nat)
    (hv : redisGet st.redis key = some v) (hf : f (postIdOf key) = false) :
    syncKey f st key
      = { redis := redisDelete st.redis key,
          db := dbSave
                  (dbSave (dbGetOrCreate st.db (postIdOf key)).2 (postIdOf key)
                    { (dbGetOrCreate st.db (postIdOf key)).1 with
                        impressions := (dbGetOrCreate st.db (postIdOf key)).1.impressions + v })
                  (postIdOf key)
                  (update_click_through_rate
                    { (dbGetOrCreate st.db (postIdOf key)).1 with
                        impressions := (dbGetOrCreate st.db (postIdOf key)).1.impressions + v }),
          failLog := st.failLog } := by
  unfold syncKey syncKeyBody
  rw [hv]
  simp [hf]

theorem syncKey_ok_redis (f : String → Bool) (st : SyncState) (key : String) (v : Nat)
    (hv : redisGet st.redis key = some v) (hf : f (postIdOf key) = false) :
    redisGet (syncKey f st key).redis key = none := by
  rw [syncKey_ok_state f st key v hv hf]
  exact redisGet_delete_self _ _

theorem syncKey_ok_db (f : String → Bool) (st : SyncState) (key : String) (v : Nat)
    (hv : redisGet st.redis key = some v) (hf : f (postIdOf key) = false) :
    dbLookup (syncKey f st key).db (postIdOf key)
      = some (flushedRecord (dbLookup st.db (postIdOf key)) v) := by
  rw [syncKey_ok_state f st key v hv hf]
  simp [dbLookup_dbSave_self, flushedRecord, dbGetOrCreate_fst]

theorem syncKey_ok_log (f : String → Bool) (st : SyncState) (key : String) (v : Nat)
    (hv : redisGet st.redis key = some v) (hf : f (postIdOf key) = false) :
    (syncKey f st key).failLog = st.failLog := by
  rw [syncKey_ok_state f st key v hv hf]

theorem syncKey_redis_other (f : String → Bool) (st : SyncState) (key k : String)
    (h : k ≠ key) : redisGet (syncKey f st key).redis k = redisGet st.redis k := by
  unfold syncKey syncKeyBody
  cases hv : redisGet st.redis key with
  | none => simp
  | some v =>
    by_cases hf : f (postIdOf key) = true
    · simp [hf]
    · simp [hf, redisGet_delete_other _ _ _ h]

theorem syncKey_db_other (f : String → Bool) (st : SyncState) (key pid : String)
    (h : pid ≠ postIdOf key) : dbLookup (syncKey f st key).db pid = dbLookup st.db pid := by
  unfold syncKey syncKeyBody
  cases hv : redisGet st.redis key with
  | none => simp
  | some v =>
    by_cases hf : f (postIdOf key) = true
    · simp [hf]
    · simp [hf, dbLookup_dbSave_other _ _ _ _ h, dbLookup_dbGetOrCreate_other _ _ _ h]

theorem syncKey_log_mono (f : String → Bool) (st : SyncState) (key l : String)
    (h : l ∈ st.failLog) : l ∈ (syncKey f st key).failLog := by
  unfold syncKey syncKeyBody
  cases hv : redisGet st.redis key with
  | none => simp [h]
  | some v =>
    by_cases hf : f (postIdOf key) = true
    · simp [hf, h]
    · simp [hf, h]

theorem syncFold_redis_other (f : String → Bool) (keys : List String) (st : SyncState)
    (k : String) (h : k ∉ keys) :
    redisGet (keys.foldl (syncKey f) st).redis k = redisGet st.redis k := by
  induction keys generalizing st with
  | nil => rfl
  | cons j ks ih =>
    rw [List.foldl_cons, ih _ (fun hm => h (List.mem_cons_of_mem j hm)),
      syncKey_redis_other f st j k (fun he => h (he ▸ List.mem_cons_self j ks))]

theorem syncFold_db_other (f : String → Bool) (keys : List String) (st : SyncState)
    (pid : String) (h : pid ∉ keys.map postIdOf) :
    dbLookup (keys.foldl (syncKey f) st).db pid = dbLookup st.db pid := by
  induction keys generalizing st with
  | nil => rfl
  | cons j ks ih =>
    rw [List.foldl_cons, ih _ (fun hm => h (by simpa using Or.inr (by simpa using hm))),
      syncKey_db_other f st j pid (fun he => h (by simp [he]))]

theorem syncFold_log_mono (f : String → Bool) (keys : List String) (st : SyncState)
    (l : String) (h : l ∈ st.failLog) : l ∈ (keys.foldl (syncKey f) st).failLog := by
  induction keys generalizing st with
  | nil => exact h
  | cons j ks ih => exact ih _ (syncKey_log_mono f st j l h)

/-- Per-key outcome of one reconciliation pass over a snapshot of keys, by
induction over the snapshot: a key whose database update fails keeps its value
and is logged; a key whose update succeeds is drained and its record absorbs
exactly the pending delta with a fresh CTR. -/
theorem sync_foldl_spec (f : String → Bool) (keys : List String) :
    ∀ (st : SyncState), keys.Nodup → (keys.map postIdOf).Nodup →
      (∀ k ∈ keys, ∃ v, redisGet st.redis k = some v) →
      ∀ k ∈ keys,
        (f (postIdOf k) = true →
          redisGet (keys.foldl (syncKey f) st).redis k = redisGet st.redis k ∧
          dbLookup (keys.foldl (syncKey f) st).db (postIdOf k) = dbLookup st.db (postIdOf k) ∧
          syncLogLine k "analytics update failed" ∈ (keys.foldl (syncKey f) st).failLog) ∧
        (f (postIdOf k) = false →
          redisGet (keys.foldl (syncKey f) st).redis k = none ∧
          dbLookup (keys.foldl (syncKey f) st).db (postIdOf k)
            = some (flushedRecord (dbLookup st.db (postIdOf k)) (redisLookup st.redis k))) := by
  induction keys with
  | nil => intro st _ _ _ k hk; cases hk
  | cons j ks ih =>
    intro st hnd hpnd hpres k hk
    have hjks : j ∉ ks := (List.nodup_cons.mp hnd).1
    have hksnd : ks.Nodup := (List.nodup_cons.mp hnd).2
    have hpj : postIdOf j ∉ ks.map postIdOf := (List.nodup_cons.mp (by simpa using hpnd)).1
    have hpksnd : (ks.map postIdOf).Nodup := (List.nodup_cons.mp (by simpa using hpnd)).2
    obtain ⟨vj, hvj⟩ := hpres j (List.mem_cons_self j ks)
    rw [List.foldl_cons]
    rcases List.mem_cons.mp hk with rfl | hk2
    · constructor
      · intro hf
        have hstep := syncKey_fail_state f st k vj hvj hf
        refine ⟨?_, ?_, ?_⟩
        · rw [syncFold_redis_other f ks _ k hjks, hstep]
        · rw [syncFold_db_other f ks _ (postIdOf k) hpj, hstep]
        · exact syncFold_log_mono f ks _ _ (by rw [hstep]; simp)
      · intro hf
        refine ⟨?_, ?_⟩
        · rw [syncFold_redis_other f ks _ k hjks]
          exact syncKey_ok_redis f st k vj hvj hf
        · rw [syncFold_db_other f ks _ (postIdOf k) hpj,
            syncKey_ok_db f st k vj hvj hf]
          have : redisLookup st.redis k = vj := by simp [redisLookup, hvj]
          rw [this]
    · have hkj : k ≠ j := fun he => hjks (he ▸ hk2)
      have hpkj : postIdOf k ≠ postIdOf j :=
        fun he => hpj (he ▸ List.mem_map_of_mem postIdOf hk2)
      have hres1 : ∀ k' ∈ ks, ∃ v, redisGet (syncKey f st j).redis k' = some v := by
        intro k' hk'
        have hne : k' ≠ j := fun he => hjks (he ▸ hk')
        rw [syncKey_redis_other f st j k' hne]
        exact hpres k' (List.mem_cons_of_mem j hk')
      have hmain := ih (syncKey f st j) hksnd hpksnd hres1 k hk2
      have hr : redisGet (syncKey f st j).redis k = redisGet st.redis k :=
        syncKey_redis_other f st j k hkj
      have hd : dbLookup (syncKey f st j).db (postIdOf k) = dbLookup st.db (postIdOf k) :=
        syncKey_db_other f st j (postIdOf k) hpkj
      have hl : redisLookup (syncKey f st j).redis k = redisLookup st.redis k := by
        rw [redisLookup, hr, redisLookup]
      rw [hr, hd, hl] at hmain
      exact hmain

/-! ## CTR freshness lemmas -/

theorem ctrInvariant_update (a : AnalyticsRecord) :
    ctrInvariant (update_click_through_rate a) := by
  simp [ctrInvariant, update_click_through_rate]

theorem dbFreshOrOld_save_generic (db0 db db1 : List (String × AnalyticsRecord)) (pid : String)
    (a : AnalyticsRecord) (hother : ∀ p2, p2 ≠ pid → dbLookup db1 p2 = dbLookup db p2)
    (h0 : dbFreshOrOld db0 db) (ha : ctrInvariant a) :
    dbFreshOrOld db0 (dbSave db1 pid a) := by
  intro pid2 rec hrec
  by_cases he : pid2 = pid
  · subst he
    rw [dbLookup_dbSave_self] at hrec
    simp only [Option.some.injEq] at hrec
    subst hrec
    exact Or.inr ha
  · rw [dbLookup_dbSave_other _ _ _ _ he, hother pid2 he] at hrec
    exact h0 pid2 rec hrec

theorem syncKey_none_state (f : String → Bool) (st : SyncState) (key : String)
    (hv : redisGet st.redis key = none) :
    syncKey f st key
      = { st with failLog := st.failLog ++ [syncLogLine key "int() argument is None"] } := by
  unfold syncKey syncKeyBody
  rw [hv]

theorem syncKey_fresh (f : String → Bool) (st : SyncState) (key : String)
    (db0 : List (String × AnalyticsRecord)) (h : dbFreshOrOld db0 st.db) :
    dbFreshOrOld db0 (syncKey f st key).db := by
  cases hv : redisGet st.redis key with
  | none => rw [syncKey_none_state f st key hv]; exact h
  | some v =>
    by_cases hf : f (postIdOf key) = true
    · rw [syncKey_fail_state f st key v hv hf]; exact h
    · have hf' : f (postIdOf key) = false := by simpa using hf
      rw [syncKey_ok_state f st key v hv hf']
      exact dbFreshOrOld_save_generic db0 st.db _ (postIdOf key) _
        (fun p2 hne => by
          rw [dbLookup_dbSave_other _ _ _ _ hne, dbLookup_dbGetOrCreate_other _ _ _ hne])
        h (ctrInvariant_update _)

theorem sync_fresh (f : String → Bool) (keys : List String) (st : SyncState)
    (db0 : List (String × AnalyticsRecord)) (h : dbFreshOrOld db0 st.db) :
    dbFreshOrOld db0 (keys.foldl (syncKey f) st).db := by
  induction keys generalizing st with
  | nil => exact h
  | cons j ks ih => exact ih _ (syncKey_fresh f st j db0 h)

theorem incrLoop_up (r : List (String × Nat)) (ks : List String) :
    incrLoop false r ks = .ok (ks.foldl redisIncr r) := by
  induction ks generalizing r with
  | nil => rfl
  | cons j ks ih => simp [incrLoop, ih]

theorem incrLoop_down (r : List (String × Nat)) (k : String) (ks : List String) :
    incrLoop true r (k :: ks) = .error (.storeError "Connection refused") := rfl

/-! ## Q-expression lemmas (category filter) -/

theorem categoryQ_ne_empty (t : String) : categoryQ t ≠ DjangoQ.empty := by
  unfold categoryQ
  split <;> simp

theorem combineOr_empty_left (b : DjangoQ) : DjangoQ.empty.combineOr b = b := by
  cases b <;> rfl

theorem combineOr_ne_empty (a b : DjangoQ) (ha : a ≠ DjangoQ.empty)
    (hb : b ≠ DjangoQ.empty) : a.combineOr b ≠ DjangoQ.empty := by
  cases a <;> cases b <;> simp_all [DjangoQ.combineOr]

theorem combineOr_eval (a b : DjangoQ) (p : Post) (ha : a ≠ DjangoQ.empty)
    (hb : b ≠ DjangoQ.empty) : (a.combineOr b).eval p = (a.eval p || b.eval p) := by
  cases a <;> cases b <;> simp_all [DjangoQ.combineOr, DjangoQ.eval]

theorem foldl_combineOr_eval (p : Post) (ts : List String) :
    ∀ acc : DjangoQ, acc ≠ DjangoQ.empty →
      (ts.foldl (fun a t => a.combineOr (categoryQ t)) acc).eval p
        = (acc.eval p || ts.any (fun t => (categoryQ t).eval p)) := by
  induction ts with
  | nil => intro acc h; simp
  | cons t ts ih =>
    intro acc h
    rw [List.foldl_cons, ih _ (combineOr_ne_empty acc (categoryQ t) h (categoryQ_ne_empty t)),
      combineOr_eval acc (categoryQ t) p h (categoryQ_ne_empty t), List.any_cons,
      Bool.or_assoc]

theorem categoryQ_eval (t : String) (p : Post) :
    (categoryQ t).eval p
      = if isValidUUID t then p.categoryId == canonicalHex t else p.categorySlug == t := by
  unfold categoryQ
  split <;> rfl

/-! ## Claim theorems -/

/-- C1: after any operation that changes clicks or impressions — the click
endpoint's increment or a reconciliation flush of an accumulated impression
delta — every row of the persisted analytics store either sat unchanged in the
store before the operation or satisfies `clickThroughRate = clicks/impressions`
(0 when `impressions = 0`) recomputed from its own current counters; the stored
record never keeps a CTR computed from older counter values. -/
theorem ctr_never_stale (slug : String) (cst : ClickStore) (f : String → Bool)
    (st : SyncState) :
    dbFreshOrOld cst.analytics (IncrementPostClickView_post slug cst).1.analytics ∧
    dbFreshOrOld st.db (sync_impressions_to_db f st).db := by
  constructor
  · unfold IncrementPostClickView_post
    cases hfind : (postobjects cst.posts).find? (fun p => p.slug == slug) with
    | none => exact fun pid rec h => Or.inl h
    | some p =>
      by_cases hd : cst.dbDown = true
      · simp only [hd, if_true]
        exact fun pid rec h => Or.inl h
      · have hd' : cst.dbDown = false := by simpa using hd
        simp only [hd', Bool.false_eq_true, if_false]
        exact dbFreshOrOld_save_generic cst.analytics cst.analytics _ p.id _
          (fun p2 hne => dbLookup_dbGetOrCreate_other _ _ _ hne)
          (fun pid rec h => Or.inl h)
          (by unfold increment_click; exact ctrInvariant_update _)
  · unfold sync_impressions_to_db
    exact sync_fresh f _ st st.db (fun pid rec h => Or.inl h)

/-- Witness for C1: a concrete click on `clickFixture` persists the freshly
recomputed record `clickedRecord`; by the theorem it is fresh (its CTR matches
its own counters) since the row did not pre-exist. -/
theorem ctr_never_stale_witness :
    dbLookup clickFixture.analytics "p1" = some clickedRecord ∨ ctrInvariant clickedRecord :=
  (ctr_never_stale "alpha" clickFixture (fun _ => false) syncFixture).1 "p1" clickedRecord
    (by decide)

/-- C3: in every reconciliation run (over a well-formed counter store whose
enumerated keys and their entity ids are distinct), a key whose analytics
update fails keeps its value in the counter store, leaves its database row
untouched and is logged; a key whose update succeeds is deleted only together
with its database row having absorbed exactly the accumulated delta.  The
job's total type (`SyncState`, not `Except`) reflects that the per-key
`try/except` keeps it from crashing, so the remaining keys are always
processed. -/
theorem sync_failure_isolation (f : String → Bool) (st : SyncState)
    (hkeys : (redisKeys st.redis "post:impressions:").Nodup)
    (hpids : ((redisKeys st.redis "post:impressions:").map postIdOf).Nodup) :
    ∀ k ∈ redisKeys st.redis "post:impressions:",
      (f (postIdOf k) = true →
        redisGet (sync_impressions_to_db f st).redis k = redisGet st.redis k ∧
        dbLookup (sync_impressions_to_db f st).db (postIdOf k) = dbLookup st.db (postIdOf k) ∧
        syncLogLine k "analytics update failed" ∈ (sync_impressions_to_db f st).failLog) ∧
      (f (postIdOf k) = false →
        redisGet (sync_impressions_to_db f st).redis k = none ∧
        dbLookup (sync_impressions_to_db f st).db (postIdOf k)
          = some (flushedRecord (dbLookup st.db (postIdOf k)) (redisLookup st.redis k))) := by
  intro k hk
  unfold sync_impressions_to_db
  exact sync_foldl_spec f (redisKeys st.redis "post:impressions:") st hkeys hpids
    (fun k' hk' => redisGet_mem_keys st.redis _ k' hk') k hk

/-- Witness for C3: on `syncFixture` with the update for post `p2` failing,
the key for `p1` is drained with its delta absorbed, while the key for `p2`
keeps its value, leaves the database untouched and is logged. -/
theorem sync_failure_isolation_witness :
    (redisGet (sync_impressions_to_db failP2 syncFixture).redis "post:impressions:p1" = none ∧
      dbLookup (sync_impressions_to_db failP2 syncFixture).db (postIdOf "post:impressions:p1")
        = some (flushedRecord (dbLookup syncFixture.db (postIdOf "post:impressions:p1"))
            (redisLookup syncFixture.redis "post:impressions:p1"))) ∧
    (redisGet (sync_impressions_to_db failP2 syncFixture).redis "post:impressions:p2"
        = redisGet syncFixture.redis "post:impressions:p2" ∧
      dbLookup (sync_impressions_to_db failP2 syncFixture).db (postIdOf "post:impressions:p2")
        = dbLookup syncFixture.db (postIdOf "post:impressions:p2") ∧
      syncLogLine "post:impressions:p2" "analytics update failed"
        ∈ (sync_impressions_to_db failP2 syncFixture).failLog) := by
  constructor
  · exact (sync_failure_isolation failP2 syncFixture (by decide) (by decide)
      "post:impressions:p1" (by decide)).2 (by decide)
  · exact (sync_failure_isolation failP2 syncFixture (by decide) (by decide)
      "post:impressions:p2" (by decide)).1 (by decide)

/-- C4 (code bug): the reconciliation job enumerates only
`post:impressions:*`.  A pending category impression key — written by
`CategoryListView.get` — is never drained: a run over a store holding only
`category:impressions:c1 ↦ 7` returns the store unchanged, so the delta never
reaches the category's analytics record. -/
theorem category_impressions_never_drained :
    sync_impressions_to_db (fun _ => false)
        { redis := [("category:impressions:c1", 7)], db := [], failLog := [] }
      = { redis := [("category:impressions:c1", 7)], db := [], failLog := [] } := by decide

/-- C9 (code bug): with the job's GET and DEL as separate atomic store
operations (tasks.py lines 48 and 56), the interleaving `raceTrace` — a second
client INCR landing between them — ends with the key deleted and only 1 of the
2 increments reaching the database: the unconditional delete loses the
concurrent increment, refuting exact drain. -/
theorem lost_update_interleaving :
    countIncrs raceTrace = 2 ∧
    runRace { counter := none, jobLocal := 0, dbImpressions := 0 } raceTrace
      = { counter := none, jobLocal := 1, dbImpressions := 1 } := by decide

/-- C7: for a non-empty set of category tokens, the built Q filter equals the
OR-combination over tokens, where a token that parses as a valid UUID is
matched against the category id and any other token against the category
slug. -/
theorem category_filter_or_combined (tokens : List String) (posts : List Post)
    (h : tokens ≠ []) :
    applyCategoryFilter tokens posts
      = posts.filter (fun p => tokens.any (fun t =>
          if isValidUUID t then p.categoryId == canonicalHex t else p.categorySlug == t)) := by
  obtain ⟨t, ts, rfl⟩ := List.exists_cons_of_ne_nil h
  unfold applyCategoryFilter
  simp only [List.isEmpty_cons, Bool.false_eq_true, if_false]
  apply List.filter_congr
  intro p hp
  unfold buildCategoryQueries
  rw [List.foldl_cons, combineOr_empty_left,
    foldl_combineOr_eval p ts (categoryQ t) (categoryQ_ne_empty t), List.any_cons]
  simp only [categoryQ_eval]

/-- Witness for C7: a UUID token and a slug token OR-combined over two posts,
one matching by category id, the other by category slug. -/
theorem category_filter_or_combined_witness :
    applyCategoryFilter ["123e4567-e89b-12d3-a456-426614174000", "fiction"]
        [samplePost, fictionPost]
      = [samplePost, fictionPost].filter (fun p =>
          ["123e4567-e89b-12d3-a456-426614174000", "fiction"].any (fun t =>
            if isValidUUID t then p.categoryId == canonicalHex t else p.categorySlug == t)) :=
  category_filter_or_combined _ _ (by decide)

/-- C10: a category list request with ordering `az` or `za` that misses the
cache always ends in the generic unexpected-error response — the ordering
branch reads the never-assigned local `posts` (UnboundLocalError), and even
the empty-store path's NotFound is rewrapped by the same catch-all — never in
an alphabetically ordered category list. -/
theorem az_ordering_generic_error (req : CatRequest) (st : CatStore)
    (hmiss : truthyCacheGet st.cache st.now (catSig req) = none)
    (hord : req.ordering = some "az" ∨ req.ordering = some "za") :
    ((CategoryListView_get req st).2).isApiError = true := by
  unfold CategoryListView_get catListBody
  rw [hmiss]
  by_cases hb : (catBase req st).isEmpty
  · simp [hb, Response.isApiError]
  · rcases hord with h | h <;> rw [h] <;> simp [hb, Response.isApiError]

/-- Witness for C10 at a concrete request and store. -/
theorem az_ordering_generic_error_witness :
    ((CategoryListView_get azCatRequest catStoreFixture).2).isApiError = true :=
  az_ordering_generic_error azCatRequest catStoreFixture (by decide) (Or.inl rfl)

/-- C2 counterexample: a search that filters the non-empty published set to
zero rows returns an empty success (an empty paginated page), not a
404-equivalent. -/
theorem empty_filter_counterexample :
    (PostListView_get searchMissRequest freshStore).2 = Response.paginated [] := by decide

/-- C2 amended: a filter selecting zero rows from a non-empty published set
yields an empty success; the not-found condition is raised only when the
unfiltered published set is empty, and the handler's catch-all then surfaces
it as the generic 500-equivalent wrapping the original message. -/
theorem empty_filter_behaviour (req : ListRequest) (st : PostStore)
    (hmiss : truthyCacheGet st.cache st.now (postSig req) = none) :
    ((postobjects st.posts).isEmpty = false → (postListResult req st).isEmpty = true →
      (PostListView_get req st).2 = Response.paginated []) ∧
    ((postobjects st.posts).isEmpty = true →
      (PostListView_get req st).2
        = Response.apiError "An unexpected error occurred: No posts found.") := by
  constructor
  · intro hne hz
    have hz' : postListResult req st = [] := by simpa using hz
    unfold PostListView_get postListBody postListMiss
    rw [hmiss]
    simp [hne, hz', incrLoop]
  · intro he
    unfold PostListView_get postListBody postListMiss
    rw [hmiss]
    simp [he, excMsg]

/-- Witness for C2 amended: both branches at concrete inputs. -/
theorem empty_filter_behaviour_witness :
    (PostListView_get searchMissRequest freshStore).2 = Response.paginated [] ∧
    (PostListView_get baseRequest emptyStore).2
      = Response.apiError "An unexpected error occurred: No posts found." := by
  constructor
  · exact (empty_filter_behaviour searchMissRequest freshStore (by decide)).1
      (by decide) (by decide)
  · exact (empty_filter_behaviour baseRequest emptyStore (by decide)).2 (by decide)

/-- C6 counterexample: two stores whose published posts carry the same
identifier but different titles store different values under the same
signature at the same capture time — so the cached value is the sequence of
full entity objects, not a sequence of identifiers plus a capture
timestamp. -/
theorem cache_full_objects_counterexample :
    samplePost.id = samplePostB.id ∧ samplePost ≠ samplePostB ∧
    cacheFind (PostListView_get baseRequest freshStore).1.cache (postSig baseRequest)
      = some ([samplePost], 300) ∧
    cacheFind (PostListView_get baseRequest storeB).1.cache (postSig baseRequest)
      = some ([samplePostB], 300) := by decide

/-- C6 amended: on every cache miss over a non-empty published set the value
stored under the query signature is the ordered sequence of full entity
objects produced by the filtered query (with no separate capture timestamp
inside the value), and the entry expires a fixed 5 minutes (300 seconds)
after storage. -/
theorem cache_set_on_miss (req : ListRequest) (st : PostStore)
    (hmiss : truthyCacheGet st.cache st.now (postSig req) = none)
    (hne : (postobjects st.posts).isEmpty = false) :
    cacheFind (PostListView_get req st).1.cache (postSig req)
      = some (postListResult req st, st.now + 60 * 5) := by
  unfold PostListView_get postListBody postListMiss
  rw [hmiss]
  simp only [hne, Bool.false_eq_true, if_false]
  cases hi : incrLoop st.redisDown st.redis ((postListResult req st).map postImpressionKey) with
  | ok r1 => simp [cacheFind]
  | error e => simp [cacheFind]

/-- Witness for C6 amended at a concrete store. -/
theorem cache_set_on_miss_witness :
    cacheFind (PostListView_get baseRequest freshStore).1.cache (postSig baseRequest)
      = some (postListResult baseRequest freshStore, freshStore.now + 60 * 5) :=
  cache_set_on_miss baseRequest freshStore (by decide) (by decide)

/-- C8 counterexample: with the counter store down and a cold cache the list
read does not return the content — it fails with the generic 500-equivalent,
so the counter failure propagates to the requester. -/
theorem counter_failure_propagates_counterexample :
    (PostListView_get baseRequest downStore).2
      = Response.apiError "An unexpected error occurred: Connection refused" := by decide

/-- C8 amended: inside the background task a counter failure is logged and
swallowed, leaving the database untouched; but on the synchronous list read
path a counter-store failure is caught by the catch-all and surfaces as the
generic 500-equivalent, so the read returns no content and analytics failure
does break content delivery there. -/
theorem counter_failure_isolation (req : ListRequest) (st : PostStore)
    (db : List (String × AnalyticsRecord)) (pid : String)
    (hmiss : truthyCacheGet st.cache st.now (postSig req) = none)
    (hne : (postobjects st.posts).isEmpty = false)
    (hres : (postListResult req st).isEmpty = false)
    (hdown : st.redisDown = true) :
    (PostListView_get req st).2
      = Response.apiError "An unexpected error occurred: Connection refused" ∧
    (increment_post_impressions true db pid).1 = db ∧
    (increment_post_impressions true db pid).2
      = ["Error incrementing impressions for Post ID " ++ pid ++ ": store error"] := by
  refine ⟨?_, rfl, rfl⟩
  obtain ⟨p, ps, hcons⟩ :=
    List.exists_cons_of_ne_nil (fun hnil => by simp [hnil] at hres :
      postListResult req st ≠ [])
  unfold PostListView_get postListBody postListMiss
  rw [hmiss]
  simp only [hne, Bool.false_eq_true, if_false]
  rw [hdown, hcons, List.map_cons, incrLoop_down]
  rfl

/-- Witness for C8 amended at a concrete store. -/
theorem counter_failure_isolation_witness :
    (PostListView_get baseRequest downStore).2
      = Response.apiError "An unexpected error occurred: Connection refused" ∧
    (increment_post_impressions true [] "p9").1 = [] ∧
    (increment_post_impressions true [] "p9").2
      = ["Error incrementing impressions for Post ID " ++ "p9" ++ ": store error"] :=
  counter_failure_isolation baseRequest downStore [] "p9" (by decide) (by decide)
    (by decide) rfl

/-- C5: a populated cache entry hit within the 5-minute TTL serves exactly the
result set of the original query (hence the same entity identifiers), and the
hit still schedules exactly one impression increment per entity of the cached
result set on top of the counters left by the original run. -/
theorem cache_hit_same_ids_still_counts (req : ListRequest) (st : PostStore) (now2 : Nat)
    (hmiss : truthyCacheGet st.cache st.now (postSig req) = none)
    (hne : (postobjects st.posts).isEmpty = false)
    (hres : (postListResult req st).isEmpty = false)
    (hup : st.redisDown = false)
    (hexp : now2 < st.now + 60 * 5) :
    (PostListView_get req st).2 = Response.paginated (postListResult req st) ∧
    (PostListView_get req { (PostListView_get req st).1 with now := now2 }).2
      = Response.paginated (postListResult req st) ∧
    ∀ k, redisLookup
          (PostListView_get req { (PostListView_get req st).1 with now := now2 }).1.redis k
        = redisLookup (PostListView_get req st).1.redis k
          + ((postListResult req st).map postImpressionKey).count k := by
  have h1 : PostListView_get req st
      = ({ st with
            cache := (postSig req, postListResult req st, st.now + 60 * 5) :: st.cache,
            redis := ((postListResult req st).map postImpressionKey).foldl redisIncr st.redis },
         Response.paginated (postListResult req st)) := by
    unfold PostListView_get postListBody postListMiss
    rw [hmiss, hup]
    simp [hne, incrLoop_up]
  have hhit : truthyCacheGet
      ((postSig req, postListResult req st, st.now + 60 * 5) :: st.cache) now2 (postSig req)
      = some (postListResult req st) := by
    unfold truthyCacheGet cacheFind
    simp [hexp, hres]
  rw [h1]
  refine ⟨rfl, ?_, ?_⟩
  · unfold PostListView_get postListBody
    simp only [hhit, hup, incrLoop_up]
  · intro k
    unfold PostListView_get postListBody
    simp only [hhit, hup, incrLoop_up]
    exact redisLookup_incr_foldl _ _ k

/-- Witness for C5 at a concrete populate-then-hit pair of runs. -/
theorem cache_hit_same_ids_still_counts_witness :
    (PostListView_get baseRequest freshStore).2
      = Response.paginated (postListResult baseRequest freshStore) ∧
    (PostListView_get baseRequest
        { (PostListView_get baseRequest freshStore).1 with now := 3 }).2
      = Response.paginated (postListResult baseRequest freshStore) ∧
    redisLookup (PostListView_get baseRequest
          { (PostListView_get baseRequest freshStore).1 with now := 3 }).1.redis
        "post:impressions:p1"
      = redisLookup (PostListView_get baseRequest freshStore).1.redis "post:impressions:p1"
        + ((postListResult baseRequest freshStore).map postImpressionKey).count
            "post:impressions:p1" := by
  have h := cache_hit_same_ids_still_counts baseRequest freshStore 3 (by decide) (by decide)
    (by decide) rfl (by decide)
  exact ⟨h.1, h.2.1, h.2.2 "post:impressions:p1"⟩

end Blog
